import Mathlib

/-!
Verification development for the DOM snapshot and interactive-element
indexing core of the browser-use repository.

The definitions below are a shallow embedding of the Python code in
`browser_use/dom/service.py` (DomService: `_parse_node`,
`_construct_dom_tree`, `_build_dom_tree`, `get_clickable_elements`,
`get_cross_origin_iframes`, `click_element`) and of the JavaScript
`isInteractiveElement` classifier embedded in
`browser_use/browser.py` (`scan_interactive_elements`).

Python exceptions are modelled by an `Except PyErr` result; Python
dictionaries by association lists with insertion-order semantics
(updating an existing key keeps its position, new keys are appended);
the asynchronous page object by an explicit `PageState` record whose
fields give the outcomes of the page round trips the code performs.
-/

namespace BrowserUse

/-- Modelled from the spec: the data model of `browser_use/dom/views.py`
(`DOMElementNode`, `DOMTextNode`, `ViewportInfo`), a module the service
imports but whose file is not in the source tree.  Spec section 3 describes
it: a tagged variant of ElementNode and TextNode.  The `parent` weak
back-reference is omitted: it is not an ownership edge and no claim here
depends on it; children links carry the tree structure. -/
structure ViewportInfo where
  width : Nat
  height : Nat

/-- Modelled from the spec: `DOMNode` is the tagged union of ElementNode
and TextNode (spec section 3). -/
inductive DOMNode where
  | text (text : String) (isVisible : Bool)
  | element (tagName : String) (xpath : String)
      (attributes : List (String × String))
      (isVisible isInteractive isTopElement isInViewport : Bool)
      (highlightIndex : Option Nat) (shadowRoot : Bool)
      (viewportInfo : Option ViewportInfo)
      (children : List DOMNode)

/-- The children list of a node; a text node has none. -/
def DOMNode.childrenOf : DOMNode → List DOMNode
  | .text _ _ => []
  | .element _ _ _ _ _ _ _ _ _ _ cs => cs

/-- Whether the node is an ElementNode (the `isinstance(node, DOMElementNode)`
tests of the Python code). -/
def DOMNode.isElement : DOMNode → Bool
  | .text _ _ => false
  | .element _ _ _ _ _ _ _ _ _ _ _ => true

/-- The `highlight_index` field (none for text nodes, which have no such
attribute; the code only reads it after an `isinstance` element check). -/
def DOMNode.highlightIndexOf : DOMNode → Option Nat
  | .text _ _ => none
  | .element _ _ _ _ _ _ _ hi _ _ _ => hi

/-- The `xpath` field (empty for text nodes, which have no such attribute;
the code only reads it on selector-map values, which are element nodes). -/
def DOMNode.xpathOf : DOMNode → String
  | .text _ _ => ""
  | .element _ xp _ _ _ _ _ _ _ _ _ => xp

/-- Reachability from a root by following children links: `Reaches t n`
holds when `t` is `n` itself or sits in the subtree of one of the
children of `n`. -/
inductive Reaches : DOMNode → DOMNode → Prop where
  | refl (n : DOMNode) : Reaches n n
  | child {t c p : DOMNode} : c ∈ p.childrenOf → Reaches t c → Reaches t p

/-- One entry of the raw payload map of `eval_page`: the JSON fields the
JavaScript extractor emits for one node, each optional because
`_parse_node` reads some with `dict.get` (absent allowed) and some with
`dict[...]` (absent raises `KeyError`). -/
structure NodeData where
  type : Option String := none
  text : Option String := none
  isVisible : Option Bool := none
  tagName : Option String := none
  xpath : Option String := none
  attributes : Option (List (String × String)) := none
  isInteractive : Option Bool := none
  isTopElement : Option Bool := none
  isInViewport : Option Bool := none
  highlightIndex : Option Nat := none
  shadowRoot : Option Bool := none
  viewport : Option ViewportInfo := none
  children : Option (List String) := none

/-- A raw map entry: `none` models a falsy entry (JSON `null` or an empty
dict), which `_parse_node` guards with `if not node_data`. -/
abbrev RawEntry := Option NodeData

/-- The raw payload `{map, rootId}` returned by evaluating
`buildDomTree.js`; the map is an insertion-ordered dictionary, embedded as
an association list. -/
structure EvalPage where
  map : List (String × RawEntry)
  rootId : String

/-- Python exceptions distinguished by the embedded code. -/
inductive PyErr where
  | keyError (key : String)
  | valueError (msg : String)
  | jsError
deriving DecidableEq

/-- Association-list lookup with first-match semantics (keys are unique in
a Python dict, so any match is the binding). -/
def lookupA {β : Type} (k : String) : List (String × β) → Option β
  | [] => none
  | p :: ps => if p.1 = k then some p.2 else lookupA k ps

/-- Association-list lookup for `Nat` keys (the selector map). -/
def lookupN {β : Type} (k : Nat) : List (Nat × β) → Option β
  | [] => none
  | p :: ps => if p.1 = k then some p.2 else lookupN k ps

/-- Python dict insertion: updating an existing key keeps its position,
a new key is appended at the end.  (Keys are unique in every map built
here, so replacing the first binding is replacing the only one.) -/
def insertA {β : Type} (k : String) (v : β) : List (String × β) →
    List (String × β)
  | [] => [(k, v)]
  | p :: ps => if p.1 = k then (k, v) :: ps else p :: insertA k v ps

/-- Python dict insertion for `Nat` keys (the selector map). -/
def insertN {β : Type} (k : Nat) (v : β) : List (Nat × β) → List (Nat × β)
  | [] => [(k, v)]
  | p :: ps => if p.1 = k then (k, v) :: ps else p :: insertN k v ps

/-- Embedding of `DomService._parse_node`.  A falsy entry yields
`(None, [])`; a `TEXT_NODE` entry requires `text` and `isVisible`
(read with square-bracket access: a missing key raises `KeyError`); an element entry requires `tagName` and `xpath` and reads the
rest with `dict.get` defaults; `children` defaults to `[]`.  The element is
created with an empty children list — `_construct_dom_tree` appends the
children afterwards. -/
def parse_node (d : RawEntry) : Except PyErr (Option DOMNode × List String) :=
  match d with
  | none => .ok (none, [])
  | some nd =>
    if nd.type = some "TEXT_NODE" then
      match nd.text, nd.isVisible with
      | some t, some v => .ok (some (.text t v), [])
      | none, _ => .error (.keyError "text")
      | some _, none => .error (.keyError "isVisible")
    else
      match nd.tagName, nd.xpath with
      | some tag, some xp =>
        .ok (some (.element tag xp (nd.attributes.getD [])
              (nd.isVisible.getD false) (nd.isInteractive.getD false)
              (nd.isTopElement.getD false) (nd.isInViewport.getD false)
              nd.highlightIndex (nd.shadowRoot.getD false)
              nd.viewport []),
            nd.children.getD [])
      | none, _ => .error (.keyError "tagName")
      | some _, none => .error (.keyError "xpath")

/-- The mutable state of the `_construct_dom_tree` loop: the `node_map`
id table and the `selector_map` being built. -/
structure BuildState where
  nodeMap : List (String × DOMNode)
  selMap : List (Nat × DOMNode)

/-- One iteration of the `_construct_dom_tree` loop body for entry
`(id, node_data)`.  A parse failure (Python `KeyError`) aborts the whole
loop; a `None` node is skipped; an element node is completed with the
children found in the current `node_map` (a referenced child id not yet
present is skipped) and recorded in `selector_map` when it carries a
highlight index.  In Python the selector-map insertion happens before the
children are appended, but the stored object is the same reference, so the
completed node is what the map holds; the embedding therefore inserts the
completed node. -/
def processEntry (st : BuildState) (e : String × RawEntry) :
    Except PyErr BuildState :=
  match parse_node e.2 with
  | .error err => .error err
  | .ok (none, _) => .ok st
  | .ok (some (.text t v), _) =>
    .ok { st with nodeMap := insertA e.1 (.text t v) st.nodeMap }
  | .ok (some (.element tag xp attrs vis inter top inview hi sh vp _), childIds) =>
    let children := childIds.filterMap (fun cid => lookupA cid st.nodeMap)
    let node := DOMNode.element tag xp attrs vis inter top inview hi sh vp children
    { nodeMap := insertA e.1 node st.nodeMap,
      selMap := match hi with
        | some h => insertN h node st.selMap
        | none => st.selMap } |> .ok

/-- The `for id, node_data in js_node_map.items()` loop of
`_construct_dom_tree`, iterating in dictionary insertion order. -/
def buildFold : List (String × RawEntry) → BuildState → Except PyErr BuildState
  | [], st => .ok st
  | e :: es, st =>
    match processEntry st e with
    | .error err => .error err
    | .ok st2 => buildFold es st2

/-- Embedding of `DomService._construct_dom_tree`: run the loop, then
resolve `rootId` in `node_map` (`node_map[str(js_root_id)]` — a missing key
raises `KeyError`); if the resolved node is not a `DOMElementNode`, raise
`ValueError`; otherwise return the root and the selector map. -/
def construct_dom_tree (m : List (String × RawEntry)) (rootId : String) :
    Except PyErr (DOMNode × List (Nat × DOMNode)) :=
  match buildFold m { nodeMap := [], selMap := [] } with
  | .error err => .error err
  | .ok st =>
    match lookupA rootId st.nodeMap with
    | none => .error (.keyError rootId)
    | some n =>
      if n.isElement then .ok (n, st.selMap)
      else .error (.valueError "Failed to parse HTML to dictionary")

/-- The build state extended with the list of ids whose nodes are in the
id table but have not (yet) been appended as a child of a later entry.
This is proof instrumentation: it adds no behaviour, and the plain build
state evolves exactly as in `processEntry` (proved below). -/
structure GBuildState where
  bs : BuildState
  unlinked : List String

/-- `processEntry` together with the unlinked-id bookkeeping: a parsed
id of a parsed node becomes unlinked when stored; ids appended as children of the
current element (those actually found in the id table) stop being
unlinked. -/
def processEntryG (g : GBuildState) (e : String × RawEntry) :
    Except PyErr GBuildState :=
  match processEntry g.bs e with
  | .error err => .error err
  | .ok bs2 =>
    .ok { bs := bs2,
          unlinked :=
            match parse_node e.2 with
            | .ok (some (.text _ _), _) => g.unlinked ++ [e.1]
            | .ok (some (.element _ _ _ _ _ _ _ _ _ _ _), childIds) =>
              (g.unlinked.filter (fun u =>
                !(decide (u ∈ childIds.filter
                    (fun cid => (lookupA cid g.bs.nodeMap).isSome)))))
              ++ [e.1]
            | _ => g.unlinked }

/-- The instrumented `_construct_dom_tree` loop. -/
def buildFoldG : List (String × RawEntry) → GBuildState →
    Except PyErr GBuildState
  | [], g => .ok g
  | e :: es, g =>
    match processEntryG g e with
    | .error err => .error err
    | .ok g2 => buildFoldG es g2

/-- Invariant of the instrumented loop: every selector-map value so far
sits inside the subtree of some still-unlinked id-table node.  Once the
loop ends with the root as the only unlinked id, this puts every
selector-map value inside the subtree of the root. -/
def GInv (g : GBuildState) : Prop :=
  ∀ q ∈ g.bs.selMap, ∃ u n, u ∈ g.unlinked ∧
    lookupA u g.bs.nodeMap = some n ∧ Reaches q.2 n

/-- The two page-evaluation round trips `_build_dom_tree` can perform:
the trivial arithmetic sanity check and the injection of the
`buildDomTree.js` extraction script. -/
inductive EvalCall where
  | sanity
  | domScript
deriving DecidableEq

/-- A sub-frame of the page as seen through Playwright: its URL and
whether the corresponding iframe element is visible. -/
structure Frame where
  url : String
  visible : Bool
deriving DecidableEq

/-- The live page, embedded as the outcomes of the round trips the code
performs: the current URL, the value the arithmetic sanity check returns, the
payload evaluating `buildDomTree.js` returns for given arguments (`none`
models the evaluation raising), the child frames, and whether
`wait_for_selector` plus `click` succeeds for a given xpath (`false`
covers a timeout, a falsy handle and a failing click alike — every such
failure is caught and turned into the same outcome). -/
structure PageState where
  url : String
  arithResult : Int
  evalPage : Bool → Int → Int → Option EvalPage
  childFrames : List Frame
  clickOk : String → Bool

/-- The minimal single-node tree the blank-page short circuit returns:
an invisible empty body element. -/
def minimalBody : DOMNode :=
  .element "body" "" [] false false false false none false none []

/-- Embedding of `DomService._build_dom_tree`, paired with the trace of
page-evaluation calls it performs.  The arithmetic sanity check runs first on every path; `about:blank` then short-circuits; otherwise
`buildDomTree.js` is evaluated (a raising evaluation is logged and
re-raised) and the payload handed to `_construct_dom_tree`. -/
def build_dom_tree (p : PageState) (highlightElements : Bool)
    (focusElement viewportExpansion : Int) :
    Except PyErr (DOMNode × List (Nat × DOMNode)) × List EvalCall :=
  if p.arithResult ≠ 2 then
    (.error (.valueError "The page cannot evaluate javascript code properly"),
     [.sanity])
  else if p.url = "about:blank" then
    (.ok (minimalBody, []), [.sanity])
  else
    match p.evalPage highlightElements focusElement viewportExpansion with
    | none => (.error .jsError, [.sanity, .domScript])
    | some ep => (construct_dom_tree ep.map ep.rootId, [.sanity, .domScript])

/-- The `DOMState` result of `get_clickable_elements`. -/
structure DOMState where
  elementTree : DOMNode
  selectorMap : List (Nat × DOMNode)

/-- Embedding of `DomService.get_clickable_elements` (the Python defaults
are `highlight_elements=True`, `focus_element=-1`,
`viewport_expansion=0`). -/
def get_clickable_elements (p : PageState) (highlightElements : Bool)
    (focusElement viewportExpansion : Int) : Except PyErr DOMState :=
  match (build_dom_tree p highlightElements focusElement viewportExpansion).1 with
  | .error err => .error err
  | .ok (tree, sm) => .ok { elementTree := tree, selectorMap := sm }

/-- Embedding of `DomService.click_element`: build a fresh snapshot with
`get_clickable_elements()` at its default arguments, look the index up in
the fresh selector map, and if present try to resolve and click the stored
xpath; every failure after the lookup — and the lookup missing — yields
`False`.  An exception during the snapshot build propagates. -/
def click_element (p : PageState) (highlightIndex : Nat) : Except PyErr Bool :=
  match get_clickable_elements p true (-1) 0 with
  | .error err => .error err
  | .ok st =>
    match lookupN highlightIndex st.selectorMap with
    | none => .ok false
    | some el => .ok (p.clickOk el.xpathOf)

/-- Whether the character list `pat` occurs as a prefix of `s`. -/
def charsStartWith : List Char → List Char → Bool
  | [], _ => true
  | _ :: _, [] => false
  | c :: cs, d :: ds => c = d && charsStartWith cs ds

/-- Whether the character list `pat` occurs contiguously inside `s`
(the Python `in` test on strings). -/
def charsContain (pat : List Char) : List Char → Bool
  | [] => pat.isEmpty
  | d :: ds => charsStartWith pat (d :: ds) || charsContain pat ds

/-- `strContains s pat` embeds the Python test `pat in s`. -/
def strContains (s pat : String) : Bool :=
  charsContain pat.toList s.toList

/-- The text after the first `//`, up to the following delimiter
(`/`, `?` or `#`); empty when no `//` occurs. -/
def netlocChars : List Char → List Char
  | [] => []
  | '/' :: '/' :: rest =>
    rest.takeWhile (fun c => !(c = '/' || c = '?' || c = '#'))
  | _ :: cs => netlocChars cs

/-- Embedding of `urllib.parse.urlparse(url).netloc` for the URL shapes
this code meets: the text between the first `//` and the following
delimiter; a URL without `//` (such as `about:blank` or a `data:` URL)
has an empty netloc. -/
def netloc (url : String) : String :=
  String.mk (netlocChars url.toList)

/-- Lower-casing character by character (`String.toLower` /
JavaScript `toLowerCase` on the ASCII tag names met here). -/
def strLower (s : String) : String :=
  String.mk (s.toList.map Char.toLower)

/-- The ad/tracking domain list of `get_cross_origin_iframes`. -/
def adDomains : List String :=
  ["doubleclick.net", "adroll.com", "googletagmanager.com"]

/-- The `is_ad_url` lambda: some ad domain occurs inside the netloc. -/
def is_ad_url (url : String) : Bool :=
  adDomains.any (fun d => strContains (netloc url) d)

/-- The URLs of the iframe elements that are not visible
(the iframe locator filtered to the non-visible ones, mapped to `src`). -/
def hidden_frame_urls (p : PageState) : List String :=
  (p.childFrames.filter (fun f => !f.visible)).map (fun f => f.url)

/-- `page.frames`: the main frame (whose URL is the page URL) followed by
the child frames. -/
def page_frames (p : PageState) : List Frame :=
  { url := p.url, visible := true } :: p.childFrames

/-- Embedding of `DomService.get_cross_origin_iframes`: keep a frame URL
when its netloc is non-empty (drops `data:` URLs and `about:blank`),
differs from the page netloc (drops same-origin frames), is not the URL of
a hidden iframe, and is not an ad/tracker URL. -/
def get_cross_origin_iframes (p : PageState) : List String :=
  ((page_frames p).filter (fun f =>
    netloc f.url ≠ "" &&
    netloc f.url ≠ netloc p.url &&
    !((hidden_frame_urls p).contains f.url) &&
    !(is_ad_url f.url))).map (fun f => f.url)

/-- A live element as seen by the `isInteractiveElement` JavaScript helper
of `scan_interactive_elements` in `browser_use/browser.py`: the handful of
DOM properties and attributes the helper reads.  Attribute getters are
`Option`-valued (`none` is JavaScript `null`). -/
structure JsElement where
  nodeType : Nat := 1
  cursor : String := "auto"
  tagName : String := "DIV"
  role : Option String := none
  tabIndexAttr : Option String := none
  onclickProp : Bool := false
  onclickAttr : Option String := none
  classList : List String := []
  ariaHaspopup : Option String := none
  contentEditableProp : String := "inherit"
  isContentEditable : Bool := false
  draggable : Bool := false
  dataAction : Option String := none
  hasAriaExpanded : Bool := false
  hasAriaPressed : Bool := false
  hasAriaSelected : Bool := false
  hasAriaChecked : Bool := false

/-- The cursor styles the helper treats as interactive. -/
def interactiveCursors : List String := ["pointer", "move", "text", "grab", "cell"]

/-- The tag names the helper treats as interactive. -/
def interactiveTags : List String :=
  ["a", "button", "details", "embed", "input", "menu", "menuitem",
   "object", "select", "textarea", "canvas", "summary", "dialog"]

/-- The ARIA roles the helper treats as interactive. -/
def interactiveRoles : List String :=
  ["button", "link", "checkbox", "radio", "menuitem", "option",
   "switch", "tab", "textbox", "combobox", "slider", "searchbox"]

/-- Embedding of the JavaScript `isInteractiveElement` helper in
`scan_interactive_elements`: a non-element node is never interactive; an
interactive cursor style decides immediately; then the tag / role /
handler / class / aria-haspopup / editability / draggability / tabindex /
data-action disjunction; finally the four ARIA state attributes.  Note the
tabindex test is `tabIndex !== null && tabIndex !== "-1"`: any attribute
value other than the literal string `-1` counts, negative or not. -/
def isInteractiveElement (e : JsElement) : Bool :=
  if e.nodeType ≠ 1 then false
  else if interactiveCursors.contains e.cursor then true
  else if
      interactiveTags.contains (strLower e.tagName) ||
      (match e.role with
       | some r => interactiveRoles.contains r
       | none => false) ||
      e.onclickProp ||
      e.onclickAttr.isSome ||
      e.classList.contains "button" ||
      e.ariaHaspopup = some "true" ||
      e.contentEditableProp = "true" ||
      e.isContentEditable ||
      e.draggable ||
      (e.tabIndexAttr.isSome && e.tabIndexAttr ≠ some "-1") ||
      e.dataAction.isSome then true
  else
    e.hasAriaExpanded || e.hasAriaPressed || e.hasAriaSelected || e.hasAriaChecked

/-- The interactive-tag set as the spec words it (section 4.2): links,
buttons, form controls, `details`, `summary`, `canvas`, `dialog`.  This is
the spec-side reading used for the refinement comparison with the classifier of the code, naming exactly the tags the spec enumerates. -/
def specInteractiveTags : List String :=
  ["a", "button", "input", "select", "textarea", "option",
   "details", "summary", "canvas", "dialog"]

/-- The classification rule exactly as the spec words it (section 4.2),
written for comparison against `isInteractiveElement` from the code: a
disjunction of interactive tag, interactive ARIA role, event-handler-style
attribute (`onclick`, `data-action`) or content-editable/draggable,
non-negative `tabindex` (the attribute value a plain non-negative decimal
numeral), the four
ARIA state attributes, and an interactive computed cursor style. -/
def spec_interactive (e : JsElement) : Bool :=
  specInteractiveTags.contains (strLower e.tagName) ||
  (match e.role with
   | some r => interactiveRoles.contains r
   | none => false) ||
  e.onclickProp || e.onclickAttr.isSome || e.dataAction.isSome ||
  e.contentEditableProp = "true" || e.isContentEditable || e.draggable ||
  (match e.tabIndexAttr with
   | some s => s.toList ≠ [] && s.toList.all Char.isDigit
   | none => false) ||
  e.hasAriaExpanded || e.hasAriaPressed || e.hasAriaSelected ||
  e.hasAriaChecked ||
  interactiveCursors.contains e.cursor

/-! Concrete inputs used by the counterexamples and witnesses. -/

/-- Raw entry of the body element of the concrete scenario in the spec:
element, children `[a, b]`, no highlight index. -/
def bodyData : NodeData :=
  { tagName := some "body", xpath := some "/body", children := some ["a", "b"] }

/-- Raw entry of the button of the concrete scenario in the spec: the only
entry carrying a highlight index. -/
def buttonData : NodeData :=
  { tagName := some "button", xpath := some "/body/button",
    isVisible := some true, isInteractive := some true,
    isTopElement := some true, isInViewport := some true,
    highlightIndex := some 0 }

/-- Raw entry of the text node of the concrete scenario in the spec. -/
def textData : NodeData :=
  { type := some "TEXT_NODE", text := some "hi", isVisible := some true }

/-- The raw map of the scenario with the entries in the order the spec display
writes them: the root first, then its children. -/
def mapRootFirst : List (String × RawEntry) :=
  [("root", some bodyData), ("a", some buttonData), ("b", some textData)]

/-- The raw map of the scenario with the entries in bottom-up order (children
before the parent), the order in which the bridge emits them. -/
def mapBottomUp : List (String × RawEntry) :=
  [("a", some buttonData), ("b", some textData), ("root", some bodyData)]

/-- The parsed button node. -/
def buttonNode : DOMNode :=
  .element "button" "/body/button" [] true true true true (some 0) false none []

/-- The parsed text node. -/
def textNodeHi : DOMNode := .text "hi" true

/-- The body node with both children linked, as the bottom-up order
produces it. -/
def bodyLinked : DOMNode :=
  .element "body" "/body" [] false false false false none false none
    [buttonNode, textNodeHi]

/-- The body node with no linked children, as the root-first order
produces it. -/
def bodyUnlinked : DOMNode :=
  .element "body" "/body" [] false false false false none false none []

/-- A raw body entry that references no children. -/
def bodyDataNoKids : NodeData :=
  { tagName := some "body", xpath := some "/body" }

/-- A payload whose button entry is referenced by no other entry: the
selector map will hold it, yet it hangs off nothing. -/
def mapDangling : List (String × RawEntry) :=
  [("1", some bodyDataNoKids), ("2", some buttonData)]

/-- A truthy raw entry missing the required `tagName` field. -/
def malformedData : NodeData := { xpath := some "/div" }

/-- A payload mixing well-formed entries with one malformed entry. -/
def mapWithMalformed : List (String × RawEntry) :=
  [("a", some buttonData), ("bad", some malformedData),
   ("root", some bodyData)]

/-- The malformed payload with its malformed entry removed. -/
def mapWellFormed : List (String × RawEntry) :=
  [("a", some buttonData), ("root", some bodyData)]

/-- The body node produced from `mapWellFormed`: the `"b"` child id finds
no entry and is skipped, so only the button is linked. -/
def bodyOnlyButton : DOMNode :=
  .element "body" "/body" [] false false false false none false none
    [buttonNode]

/-- The build state the loop reaches on the bottom-up scenario payload. -/
def builtStateBU : BuildState :=
  { nodeMap := [("a", buttonNode), ("b", textNodeHi), ("root", bodyLinked)],
    selMap := [(0, buttonNode)] }

/-- The bottom-up scenario payload as a bridge result. -/
def payloadBU : EvalPage := { map := mapBottomUp, rootId := "root" }

/-- A live page on a real URL whose extraction returns the bottom-up
scenario payload and on which every xpath resolution fails (times out). -/
def pageA : PageState :=
  { url := "https://example.com/", arithResult := 2,
    evalPage := fun _ _ _ => some payloadBU,
    childFrames := [], clickOk := fun _ => false }

/-- The same page but with every xpath resolution succeeding. -/
def pageB : PageState :=
  { url := "https://example.com/", arithResult := 2,
    evalPage := fun _ _ _ => some payloadBU,
    childFrames := [], clickOk := fun _ => true }

/-- A fresh empty tab: URL `about:blank`, healthy evaluation context. -/
def pageBlank : PageState :=
  { url := "about:blank", arithResult := 2,
    evalPage := fun _ _ _ => none,
    childFrames := [], clickOk := fun _ => false }

/-- A page with two sub-frames sharing one URL, one visible and one
hidden. -/
def pageDup : PageState :=
  { url := "https://p.com/", arithResult := 2,
    evalPage := fun _ _ _ => none,
    childFrames := [{ url := "https://x.com/a", visible := true },
                    { url := "https://x.com/a", visible := false }],
    clickOk := fun _ => false }

/-- A page with one ordinary cross-origin frame, an ad frame, a hidden
frame and a same-origin frame. -/
def pageFrames : PageState :=
  { url := "https://p.com/", arithResult := 2,
    evalPage := fun _ _ _ => none,
    childFrames := [{ url := "https://x.com/a", visible := true },
                    { url := "https://ads.doubleclick.net/x", visible := true },
                    { url := "https://t.com/h", visible := false },
                    { url := "https://p.com/inner", visible := true }],
    clickOk := fun _ => false }

/-- A div whose only non-default feature is the attribute
`tabindex="-2"`. -/
def negTabIndexDiv : JsElement := { tabIndexAttr := some "-2" }

/-- A plain button element with no other features. -/
def plainButton : JsElement := { tagName := "BUTTON" }

/-! Helper lemmas about the association-list operations, the build fold,
its instrumented variant and reachability, shared by the claim theorems
below. -/

theorem lookupA_insertA {β : Type} (k2 k : String) (v : β)
    (m : List (String × β)) :
    lookupA k2 (insertA k v m) = if k2 = k then some v else lookupA k2 m := by
  induction m with
  | nil =>
    simp only [insertA, lookupA]
    by_cases h : k2 = k
    · subst h; simp
    · rw [if_neg (fun hh => h hh.symm), if_neg h]
  | cons p ps ih =>
    simp only [insertA]
    by_cases hp : p.1 = k
    · rw [if_pos hp]
      by_cases h : k2 = k
      · subst h
        simp [lookupA]
      · rw [if_neg h]
        simp only [lookupA]
        rw [if_neg (fun hh => h hh.symm),
          if_neg (fun hh => h (hp.symm.trans hh).symm)]
    · rw [if_neg hp]
      simp only [lookupA]
      by_cases hq : p.1 = k2
      · rw [if_pos hq, if_neg (fun h => hp (hq.trans h)), if_pos hq]
      · rw [if_neg hq, ih]
        by_cases h : k2 = k
        · rw [if_pos h, if_pos h]
        · rw [if_neg h, if_neg h, if_neg hq]

theorem mem_insertN {β : Type} (q : Nat × β) (k : Nat) (v : β)
    (m : List (Nat × β)) (h : q ∈ insertN k v m) : q = (k, v) ∨ q ∈ m := by
  induction m with
  | nil => simpa [insertN] using h
  | cons p ps ih =>
    simp only [insertN] at h
    split_ifs at h with hp
    · rcases List.mem_cons.mp h with h1 | h1
      · exact Or.inl h1
      · exact Or.inr (List.mem_cons_of_mem _ h1)
    · rcases List.mem_cons.mp h with h1 | h1
      · exact Or.inr (h1 ▸ List.mem_cons_self _ _)
      · rcases ih h1 with h2 | h2
        · exact Or.inl h2
        · exact Or.inr (List.mem_cons_of_mem _ h2)

theorem buildFold_append (m₁ m₂ : List (String × RawEntry)) (st : BuildState) :
    buildFold (m₁ ++ m₂) st =
      match buildFold m₁ st with
      | .error err => .error err
      | .ok st2 => buildFold m₂ st2 := by
  induction m₁ generalizing st with
  | nil => simp [buildFold]
  | cons e es ih =>
    simp only [List.cons_append, buildFold]
    cases processEntry st e with
    | error err => rfl
    | ok st2 => exact ih st2

theorem buildFoldG_bs (m : List (String × RawEntry)) (g : GBuildState) :
    buildFold m g.bs = (buildFoldG m g).map GBuildState.bs := by
  induction m generalizing g with
  | nil => simp [buildFold, buildFoldG, Except.map]
  | cons e es ih =>
    simp only [buildFold, buildFoldG, processEntryG]
    cases hp : processEntry g.bs e with
    | error err => simp [Except.map]
    | ok bs2 => exact ih ⟨bs2, _⟩

theorem reaches_elim {t p : DOMNode} (h : Reaches t p) :
    t = p ∨ ∃ c ∈ p.childrenOf, Reaches t c := by
  cases h with
  | refl => exact Or.inl rfl
  | child hc hr => exact Or.inr ⟨_, hc, hr⟩

/-! Claim C1. -/

/-- C1 counterexample: on a live page where the selector map of the snapshot is
exactly the scenario map (key 0 only), clicking the absent index 5 returns
`False` — an ordinary `Except.ok false`, not an `IndexNotFound` exception —
and clicking the present index 0 when xpath resolution times out returns
the very same `False`, so a bad reference is not distinguishable from a
timeout, contrary to the claim. -/
theorem c1_click_missing_index_cex :
    click_element pageA 5 = .ok false ∧
    click_element pageA 0 = .ok false ∧
    ∀ err, click_element pageA 5 ≠ Except.error err := by
  refine ⟨rfl, rfl, fun err h => ?_⟩
  rw [show click_element pageA 5 = .ok false from rfl] at h
  exact Except.noConfusion h

/-- C1 (amended): for every index absent from the selector map of the freshly built snapshot, `click_element` returns `False` (never `True`, and never an
exception) — the same boolean-failure channel an ordinary resolution
timeout uses. -/
theorem c1_click_missing_index (p : PageState) (hi : Nat) (st : DOMState)
    (hst : get_clickable_elements p true (-1) 0 = .ok st)
    (habs : lookupN hi st.selectorMap = none) :
    click_element p hi = .ok false := by
  unfold click_element
  rw [hst]
  simp [habs]

/-- C1 witness: the amended theorem applied to the concrete page. -/
theorem c1_click_missing_index_w : click_element pageA 7 = .ok false :=
  c1_click_missing_index pageA 7
    { elementTree := bodyLinked, selectorMap := [(0, buttonNode)] } rfl rfl

/-! Claim C2. -/

/-- C2 counterexample: on a fresh `about:blank` tab the builder does
return the minimal invisible body and an empty selector map, but its
evaluation-call trace is `[sanity]` — the arithmetic sanity round trip still happens — not the empty trace that the zero-evaluation-calls wording of the claim demands. -/
theorem c2_blank_page_cex :
    build_dom_tree pageBlank true (-1) 0 = (.ok (minimalBody, []), [.sanity]) ∧
    (build_dom_tree pageBlank true (-1) 0).2 ≠ [] := by
  exact ⟨rfl, by decide⟩

/-- C2 (amended): on an `about:blank` page with a healthy evaluation
context, the builder returns the minimal single-node tree (an invisible
empty body with no attributes and no children) and an empty selector map,
and performs only the trivial sanity-check evaluation — the
`buildDomTree.js` extraction script is never evaluated. -/
theorem c2_blank_page_short_circuit (p : PageState) (h : Bool) (f v : Int)
    (hurl : p.url = "about:blank") (har : p.arithResult = 2) :
    build_dom_tree p h f v = (.ok (minimalBody, []), [.sanity]) ∧
    EvalCall.domScript ∉ (build_dom_tree p h f v).2 := by
  constructor <;> simp [build_dom_tree, hurl, har]

/-- C2 witness: the amended theorem applied to the concrete blank page. -/
theorem c2_blank_page_short_circuit_w :
    build_dom_tree pageBlank false 3 7 = (.ok (minimalBody, []), [.sanity]) ∧
    EvalCall.domScript ∉ (build_dom_tree pageBlank false 3 7).2 :=
  c2_blank_page_short_circuit pageBlank false 3 7 rfl rfl

/-! Claim C3. -/

/-- C3 counterexample: a payload holding two well-formed entries and one
truthy entry that lacks the required `tagName` field makes the whole build
abort with a `KeyError` naming `tagName` — the malformed entry is not skipped and
the well-formed entries are lost — while the same payload without the
malformed entry builds fine. -/
theorem c3_malformed_aborts_cex :
    construct_dom_tree mapWithMalformed "root" = .error (.keyError "tagName") ∧
    construct_dom_tree mapWellFormed "root" =
      .ok (bodyOnlyButton, [(0, buttonNode)]) :=
  ⟨rfl, rfl⟩

/-- C3 (amended): only falsy entries (`None` or an empty dict) are skipped
individually — silently, with no logging — and such an entry never changes
the result of the build; a truthy entry missing a required field (here
`tagName`) raises a `KeyError` that aborts the whole build. -/
theorem c3_skip_empty_abort_malformed :
    (∀ (m1 m2 : List (String × RawEntry)) (id rid : String),
      construct_dom_tree (m1 ++ (id, none) :: m2) rid =
        construct_dom_tree (m1 ++ m2) rid) ∧
    (∀ (m1 m2 : List (String × RawEntry)) (id rid : String) (nd : NodeData)
      (st : BuildState), buildFold m1 { nodeMap := [], selMap := [] } = .ok st →
      nd.type ≠ some "TEXT_NODE" → nd.tagName = none →
      construct_dom_tree (m1 ++ (id, some nd) :: m2) rid =
        .error (.keyError "tagName")) := by
  constructor
  · intro m1 m2 id rid
    unfold construct_dom_tree
    rw [buildFold_append, buildFold_append]
    cases buildFold m1 { nodeMap := [], selMap := [] } with
    | error err => rfl
    | ok st2 =>
      have hskip : buildFold ((id, none) :: m2) st2 = buildFold m2 st2 := by
        simp [buildFold, processEntry, parse_node]
      simp only [hskip]
  · intro m1 m2 id rid nd st hst hne htn
    unfold construct_dom_tree
    rw [buildFold_append, hst]
    have habort : buildFold ((id, some nd) :: m2) st =
        .error (.keyError "tagName") := by
      simp [buildFold, processEntry, parse_node, if_neg hne, htn]
    simp only [habort]

/-- C3 witness: the amended theorem applied to concrete payloads. -/
theorem c3_skip_empty_abort_malformed_w :
    construct_dom_tree [("b", some textData), ("z", none)] "b" =
      construct_dom_tree [("b", some textData)] "b" ∧
    construct_dom_tree [("bad", some malformedData)] "r" =
      .error (.keyError "tagName") :=
  ⟨c3_skip_empty_abort_malformed.1 [("b", some textData)] [] "z" "b",
   c3_skip_empty_abort_malformed.2 [] [] "bad" "r" malformedData
     { nodeMap := [], selMap := [] } rfl (by decide) rfl⟩

/-! Claim C8. -/

/-- C8 counterexample: iterating the raw map in the order the display in the claim writes it — the root entry first, then `a` and `b` — produces a
body whose children list is empty, not `[button, text]`: when the root is
processed its children ids are not yet in the id table and are skipped. -/
theorem c8_root_first_order_cex :
    construct_dom_tree mapRootFirst "root" =
      .ok (bodyUnlinked, [(0, buttonNode)]) ∧
    bodyUnlinked.childrenOf ≠ [buttonNode, textNodeHi] := by
  refine ⟨rfl, ?_⟩
  simp [bodyUnlinked, DOMNode.childrenOf]

/-- C8 (amended): for the raw map of the scenario with the entries supplied bottom-up (`a`, `b`, then `root`, the order the bridge emits), the builder
produces a body whose children are exactly the button element node
followed by the `"hi"` text node, and the selector map is exactly
`{0 ↦ button}`. -/
theorem c8_bottom_up_scenario :
    construct_dom_tree mapBottomUp "root" = .ok (bodyLinked, [(0, buttonNode)]) ∧
    bodyLinked.childrenOf = [buttonNode, textNodeHi] :=
  ⟨rfl, rfl⟩

/-! Claim C7. -/

/-- C7 (confirmed): when, after the linking loop, the root id is absent
from the id table the build fails with `KeyError(rootId)`; when it
resolves to a non-element node it fails with the
`Failed to parse HTML to dictionary` `ValueError`; when it resolves to an
ElementNode that node and the selector map are returned; and
`_build_dom_tree` passes the outcome of `_construct_dom_tree` — error or result — through to its caller unchanged. -/
theorem c7_root_resolution (m : List (String × RawEntry)) (rid : String)
    (st : BuildState)
    (hb : buildFold m { nodeMap := [], selMap := [] } = .ok st) :
    (lookupA rid st.nodeMap = none →
      construct_dom_tree m rid = .error (.keyError rid)) ∧
    (∀ n, lookupA rid st.nodeMap = some n → n.isElement = false →
      construct_dom_tree m rid =
        .error (.valueError "Failed to parse HTML to dictionary")) ∧
    (∀ n, lookupA rid st.nodeMap = some n → n.isElement = true →
      construct_dom_tree m rid = .ok (n, st.selMap)) ∧
    (∀ (p : PageState) (h : Bool) (f v : Int) (ep : EvalPage),
      p.arithResult = 2 → p.url ≠ "about:blank" → p.evalPage h f v = some ep →
      (build_dom_tree p h f v).1 = construct_dom_tree ep.map ep.rootId) := by
  refine ⟨?_, ?_, ?_, ?_⟩
  · intro hnone
    unfold construct_dom_tree
    rw [hb]
    simp [hnone]
  · intro n hsome hne
    unfold construct_dom_tree
    rw [hb]
    simp [hsome, hne]
  · intro n hsome he
    unfold construct_dom_tree
    rw [hb]
    simp [hsome, he]
  · intro p h f v ep har hurl hev
    simp [build_dom_tree, har, hurl, hev]

/-- C7 witness: the root-resolution cases at concrete payloads — an absent
root id and a root id naming the text node. -/
theorem c7_root_resolution_w :
    construct_dom_tree mapBottomUp "zz" = .error (.keyError "zz") ∧
    construct_dom_tree mapBottomUp "b" =
      .error (.valueError "Failed to parse HTML to dictionary") :=
  ⟨(c7_root_resolution mapBottomUp "zz" builtStateBU rfl).1 rfl,
   (c7_root_resolution mapBottomUp "b" builtStateBU rfl).2.1
     textNodeHi rfl rfl⟩

/-! Claim C9. -/

theorem processEntry_selmap_sub (st st2 : BuildState) (e : String × RawEntry)
    (h : processEntry st e = .ok st2) :
    ∀ q ∈ st2.selMap, q ∈ st.selMap ∨
      (q.2.isElement = true ∧ q.2.highlightIndexOf = some q.1) := by
  intro q hq
  unfold processEntry at h
  cases hp : parse_node e.2 with
  | error err => rw [hp] at h; exact absurd h (by simp)
  | ok pr =>
    rw [hp] at h
    obtain ⟨node?, cids⟩ := pr
    cases node? with
    | none =>
      simp only [Except.ok.injEq] at h
      subst h
      exact Or.inl hq
    | some node =>
      cases node with
      | text t v =>
        simp only [Except.ok.injEq] at h
        subst h
        exact Or.inl hq
      | element tag xp attrs vis inter top inview hi sh vp cs =>
        simp only [Except.ok.injEq] at h
        subst h
        cases hi with
        | none => exact Or.inl hq
        | some hh =>
          simp only at hq
          rcases mem_insertN q hh _ _ hq with h1 | h1
          · subst h1
            exact Or.inr ⟨rfl, rfl⟩
          · exact Or.inl h1

theorem buildFold_selmap (m : List (String × RawEntry)) :
    ∀ st st2, buildFold m st = .ok st2 →
    ∀ q ∈ st2.selMap, q ∈ st.selMap ∨
      (q.2.isElement = true ∧ q.2.highlightIndexOf = some q.1) := by
  induction m with
  | nil =>
    intro st st2 h q hq
    simp only [buildFold, Except.ok.injEq] at h
    subst h
    exact Or.inl hq
  | cons e es ih =>
    intro st st2 h q hq
    simp only [buildFold] at h
    cases hp : processEntry st e with
    | error err => rw [hp] at h; exact absurd h (by simp)
    | ok stm =>
      rw [hp] at h
      rcases ih stm st2 h q hq with hmem | hgood
      · exact processEntry_selmap_sub st stm e hp q hmem
      · exact Or.inr hgood

/-- C9 (confirmed): every value the built selector map stores is an
ElementNode whose `highlight_index` equals the key it is stored under;
in particular text nodes never receive a selector-map entry. -/
theorem c9_selmap_values_indexed (m : List (String × RawEntry))
    (rid : String) (root : DOMNode) (sm : List (Nat × DOMNode))
    (h : construct_dom_tree m rid = .ok (root, sm)) :
    ∀ q ∈ sm, q.2.isElement = true ∧ q.2.highlightIndexOf = some q.1 := by
  intro q hq
  unfold construct_dom_tree at h
  cases hb : buildFold m { nodeMap := [], selMap := [] } with
  | error err => rw [hb] at h; exact absurd h (by simp)
  | ok st =>
    rw [hb] at h
    dsimp only at h
    cases hl : lookupA rid st.nodeMap with
    | none => rw [hl] at h; exact absurd h (by simp)
    | some n =>
      rw [hl] at h
      dsimp only at h
      by_cases he : n.isElement = true
      · rw [if_pos he] at h
        simp only [Except.ok.injEq, Prod.mk.injEq] at h
        rcases buildFold_selmap m _ st hb q (h.2 ▸ hq) with hmem | hgood
        · simp at hmem
        · exact hgood
      · rw [if_neg he] at h
        exact absurd h (by simp)

/-- C9 witness: the theorem applied to the scenario payload: the single
selector-map entry holds the button element under its own index 0. -/
theorem c9_selmap_values_indexed_w :
    buttonNode.isElement = true ∧ buttonNode.highlightIndexOf = some 0 :=
  c9_selmap_values_indexed mapBottomUp "root" bodyLinked [(0, buttonNode)]
    rfl (0, buttonNode) (List.mem_singleton.mpr rfl)

/-! Claim C10. -/

/-- C10 (confirmed): `click_element` resolves the index against the
selector map of a snapshot built fresh by `get_clickable_elements` at its
default arguments (highlighting on, no focus element, no viewport
expansion): when that build succeeds the click outcome is exactly the
lookup in the fresh map (`False` when absent, the xpath resolution outcome
when present), and when the build raises the exception propagates — no
selector map other than the freshly built one is ever consulted, so the
outcome is a function of the page state at click time and the index. -/
theorem c10_click_fresh_snapshot (p : PageState) (hi : Nat) :
    (∀ st, get_clickable_elements p true (-1) 0 = .ok st →
      click_element p hi =
        .ok (match lookupN hi st.selectorMap with
             | some el => p.clickOk el.xpathOf
             | none => false)) ∧
    (∀ err, get_clickable_elements p true (-1) 0 = .error err →
      click_element p hi = .error err) := by
  constructor
  · intro st hst
    unfold click_element
    rw [hst]
    cases hl : lookupN hi st.selectorMap <;> simp [hl]
  · intro err herr
    unfold click_element
    rw [herr]

/-- C10 witness: the theorem applied to the concrete page on which xpath
resolution succeeds: the present index clicks, the absent one does not. -/
theorem c10_click_fresh_snapshot_w :
    click_element pageB 0 = .ok true ∧ click_element pageB 9 = .ok false :=
  ⟨(c10_click_fresh_snapshot pageB 0).1
      { elementTree := bodyLinked, selectorMap := [(0, buttonNode)] } rfl,
   (c10_click_fresh_snapshot pageB 9).1
      { elementTree := bodyLinked, selectorMap := [(0, buttonNode)] } rfl⟩

/-! Claim C5. -/

/-- C5 counterexample: a plain div whose only feature is the attribute
`tabindex="-2"` — a negative tabindex, satisfying none of the conditions the spec enumerates (`spec_interactive` is the rule of the spec verbatim) — is classified interactive by the code, whose test only
excludes the literal attribute value `"-1"`. -/
theorem c5_negative_tabindex_cex :
    isInteractiveElement negTabIndexDiv = true ∧
    spec_interactive negTabIndexDiv = false := by
  exact ⟨by decide, by decide⟩

/-- C5 (amended): for element nodes the classifier marks an element
interactive exactly when one of the conditions in the code holds: interactive
cursor style, interactive tag, interactive ARIA role, an onclick
property or attribute, a class list containing `button`,
`aria-haspopup="true"`, content-editable, draggable, a `tabindex`
attribute whose value is anything other than the literal `"-1"` (so
negative values such as `"-2"` count), a `data-action` attribute, or one
of the aria-expanded/pressed/selected/checked attributes. -/
theorem c5_classifier_rule (e : JsElement) (hn : e.nodeType = 1) :
    isInteractiveElement e = true ↔
      (interactiveCursors.contains e.cursor = true ∨
       interactiveTags.contains (strLower e.tagName) = true ∨
       (∃ r, e.role = some r ∧ interactiveRoles.contains r = true) ∨
       e.onclickProp = true ∨
       e.onclickAttr.isSome = true ∨
       e.classList.contains "button" = true ∨
       e.ariaHaspopup = some "true" ∨
       e.contentEditableProp = "true" ∨
       e.isContentEditable = true ∨
       e.draggable = true ∨
       (e.tabIndexAttr.isSome = true ∧ e.tabIndexAttr ≠ some "-1") ∨
       e.dataAction.isSome = true ∨
       e.hasAriaExpanded = true ∨ e.hasAriaPressed = true ∨
       e.hasAriaSelected = true ∨ e.hasAriaChecked = true) := by
  have hn' : ¬ e.nodeType ≠ 1 := by simp [hn]
  rcases hrole : e.role with _ | r <;>
  · unfold isInteractiveElement
    rw [if_neg hn']
    simp only [hrole]
    split_ifs with h1 h2 <;>
      simp_all [Bool.or_eq_true, Bool.and_eq_true, decide_eq_true_eq,
        not_or] <;>
      tauto

/-- C5 witness: the amended rule applied to a plain button element. -/
theorem c5_classifier_rule_w : isInteractiveElement plainButton = true :=
  (c5_classifier_rule plainButton rfl).mpr
    (Or.inr (Or.inl (by decide)))

/-! Claim C6. -/

/-- C6 counterexample: a page with two sub-frames sharing one URL, one
visible and one hidden: the visible frame is cross-origin, not an ad and
not excluded by any of the three exclusions the claim lists, yet the hidden-frame
exclusion works by URL membership and removes it too, so the returned list
is empty and misses it. -/
theorem c6_shared_url_cex :
    get_cross_origin_iframes pageDup = [] ∧
    ({ url := "https://x.com/a", visible := true } : Frame) ∈
      page_frames pageDup ∧
    netloc "https://x.com/a" ≠ "" ∧
    netloc "https://x.com/a" ≠ netloc pageDup.url ∧
    is_ad_url "https://x.com/a" = false ∧
    "https://x.com/a" ∉ get_cross_origin_iframes pageDup := by
  refine ⟨by decide, by decide, by decide, by decide, by decide, by decide⟩

/-- C6 (amended): the returned list never contains a same-origin or
netloc-less frame URL, never the URL of a hidden iframe, and never an
ad/tracker URL; conversely every page frame whose URL has a non-empty
netloc different from the page netloc, is not the URL of any hidden iframe
(which excludes slightly more than the hidden frames themselves: a visible
frame sharing the URL of a hidden frame is also dropped) and is not an ad URL
is returned. -/
theorem c6_frame_filter (p : PageState) :
    (∀ u ∈ get_cross_origin_iframes p,
      netloc u ≠ "" ∧ netloc u ≠ netloc p.url ∧
      u ∉ hidden_frame_urls p ∧ is_ad_url u = false) ∧
    (∀ f ∈ page_frames p, netloc f.url ≠ "" → netloc f.url ≠ netloc p.url →
      f.url ∉ hidden_frame_urls p → is_ad_url f.url = false →
      f.url ∈ get_cross_origin_iframes p) := by
  constructor
  · intro u hu
    unfold get_cross_origin_iframes at hu
    rcases List.mem_map.mp hu with ⟨f, hf, rfl⟩
    have hpred := (List.mem_filter.mp hf).2
    simp only [Bool.and_eq_true, decide_eq_true_eq, Bool.not_eq_true',
      ne_eq] at hpred
    refine ⟨hpred.1.1.1, hpred.1.1.2, ?_, hpred.2⟩
    intro hmem
    have := hpred.1.2
    simp [List.contains, List.elem_eq_mem, hmem] at this
  · intro f hf h1 h2 h3 h4
    unfold get_cross_origin_iframes
    refine List.mem_map.mpr ⟨f, List.mem_filter.mpr ⟨hf, ?_⟩, rfl⟩
    simp only [Bool.and_eq_true, decide_eq_true_eq, Bool.not_eq_true',
      ne_eq, List.contains, List.elem_eq_mem]
    exact ⟨⟨⟨h1, h2⟩, by simp [h3]⟩, h4⟩

/-- C6 witness: the amended theorem applied to a page carrying one
ordinary cross-origin frame, an ad frame, a hidden frame and a same-origin
frame: the URL of the ordinary frame is returned and the others are not. -/
theorem c6_frame_filter_w :
    "https://x.com/a" ∈ get_cross_origin_iframes pageFrames ∧
    "https://ads.doubleclick.net/x" ∉ get_cross_origin_iframes pageFrames ∧
    "https://t.com/h" ∉ get_cross_origin_iframes pageFrames ∧
    "https://p.com/inner" ∉ get_cross_origin_iframes pageFrames := by
  refine ⟨(c6_frame_filter pageFrames).2
    { url := "https://x.com/a", visible := true }
    (by decide) (by decide) (by decide) (by decide) (by decide),
    ?_, ?_, ?_⟩
  · intro hmem
    have := ((c6_frame_filter pageFrames).1 _ hmem).2.2.2
    simp [is_ad_url, adDomains, netloc, strContains] at this
    revert this
    decide
  · intro hmem
    have := ((c6_frame_filter pageFrames).1 _ hmem).2.2.1
    exact this (by decide)
  · intro hmem
    have := ((c6_frame_filter pageFrames).1 _ hmem).2.1
    exact this (by decide)

/-! Claim C4. -/

theorem processEntryG_inv (g g2 : GBuildState) (e : String × RawEntry)
    (h : processEntryG g e = .ok g2)
    (hfresh : lookupA e.1 g.bs.nodeMap = none)
    (hinv : GInv g) :
    GInv g2 ∧
    (∀ k, k ≠ e.1 → lookupA k g.bs.nodeMap = none →
      lookupA k g2.bs.nodeMap = none) := by
  unfold processEntryG at h
  cases hp : processEntry g.bs e with
  | error err => rw [hp] at h; exact absurd h (by simp)
  | ok bs2 =>
    rw [hp] at h
    dsimp only at h
    simp only [Except.ok.injEq] at h
    subst h
    unfold processEntry at hp
    cases hq : parse_node e.2 with
    | error err => rw [hq] at hp; exact absurd hp (by simp)
    | ok pr =>
      rw [hq] at hp
      obtain ⟨node?, cids⟩ := pr
      cases node? with
      | none =>
        dsimp only at hp
        simp only [Except.ok.injEq] at hp
        subst hp
        dsimp only
        exact ⟨hinv, fun k _ hnone => hnone⟩
      | some node =>
        cases node with
        | text t v =>
          dsimp only at hp
          simp only [Except.ok.injEq] at hp
          subst hp
          dsimp only
          constructor
          · intro q hq2
            dsimp only at hq2
            obtain ⟨u, n, hu, hlook, hr⟩ := hinv q hq2
            have hne : u ≠ e.1 := by
              intro heq
              rw [heq, hfresh] at hlook
              exact Option.noConfusion hlook
            refine ⟨u, n, List.mem_append_left _ hu, ?_, hr⟩
            dsimp only
            rw [lookupA_insertA, if_neg hne]
            exact hlook
          · intro k hk hnone
            rw [lookupA_insertA, if_neg hk]
            exact hnone
        | element tag xp attrs vis inter top inview hi sh vp cs0 =>
          dsimp only at hp
          simp only [Except.ok.injEq] at hp
          subst hp
          dsimp only
          constructor
          · intro q hq2
            dsimp only at hq2
            have hmain : ∀ u n, u ∈ g.unlinked →
                lookupA u g.bs.nodeMap = some n → Reaches q.2 n →
                ∃ u2 n2,
                  u2 ∈ (g.unlinked.filter (fun u2 =>
                    !(decide (u2 ∈ cids.filter (fun cid =>
                      (lookupA cid g.bs.nodeMap).isSome))))) ++ [e.1] ∧
                  lookupA u2 (insertA e.1
                    (DOMNode.element tag xp attrs vis inter top inview hi sh vp
                      (cids.filterMap (fun cid => lookupA cid g.bs.nodeMap)))
                    g.bs.nodeMap) = some n2 ∧
                  Reaches q.2 n2 := by
              intro u n hu hlook hr
              have hne : u ≠ e.1 := by
                intro heq
                rw [heq, hfresh] at hlook
                exact Option.noConfusion hlook
              by_cases hmem : u ∈ cids.filter (fun cid =>
                  (lookupA cid g.bs.nodeMap).isSome)
              · refine ⟨e.1,
                  DOMNode.element tag xp attrs vis inter top inview hi sh vp
                    (cids.filterMap (fun cid => lookupA cid g.bs.nodeMap)),
                  List.mem_append_right _ (List.mem_singleton.mpr rfl), ?_, ?_⟩
                · rw [lookupA_insertA, if_pos rfl]
                · have hucids : u ∈ cids := (List.mem_filter.mp hmem).1
                  have hnc : n ∈ cids.filterMap
                      (fun cid => lookupA cid g.bs.nodeMap) :=
                    List.mem_filterMap.mpr ⟨u, hucids, hlook⟩
                  exact Reaches.child hnc hr
              · refine ⟨u, n,
                  List.mem_append_left _
                    (List.mem_filter.mpr ⟨hu, by simp [hmem]⟩), ?_, hr⟩
                rw [lookupA_insertA, if_neg hne]
                exact hlook
            cases hi with
            | none =>
              dsimp only at hq2
              obtain ⟨u, n, hu, hlook, hr⟩ := hinv q hq2
              exact hmain u n hu hlook hr
            | some hh =>
              dsimp only at hq2
              rcases mem_insertN q hh _ _ hq2 with h1 | h1
              · refine ⟨e.1,
                  DOMNode.element tag xp attrs vis inter top inview (some hh)
                    sh vp (cids.filterMap (fun cid => lookupA cid g.bs.nodeMap)),
                  List.mem_append_right _ (List.mem_singleton.mpr rfl), ?_, ?_⟩
                · rw [lookupA_insertA, if_pos rfl]
                · rw [show q.2 = DOMNode.element tag xp attrs vis inter top
                      inview (some hh) sh vp (cids.filterMap
                        (fun cid => lookupA cid g.bs.nodeMap)) from
                      congrArg Prod.snd h1]
                  exact Reaches.refl _
              · obtain ⟨u, n, hu, hlook, hr⟩ := hinv q h1
                exact hmain u n hu hlook hr
          · intro k hk hnone
            rw [lookupA_insertA, if_neg hk]
            exact hnone

theorem buildFoldG_inv (m : List (String × RawEntry)) :
    ∀ g g2, buildFoldG m g = .ok g2 → GInv g →
    (∀ id ∈ m.map Prod.fst, lookupA id g.bs.nodeMap = none) →
    (m.map Prod.fst).Nodup →
    GInv g2 := by
  induction m with
  | nil =>
    intro g g2 h hinv _ _
    simp only [buildFoldG, Except.ok.injEq] at h
    subst h
    exact hinv
  | cons e es ih =>
    intro g g2 h hinv hfresh hnd
    simp only [buildFoldG] at h
    cases hp : processEntryG g e with
    | error err => rw [hp] at h; exact absurd h (by simp)
    | ok gm =>
      rw [hp] at h
      have hfr : lookupA e.1 g.bs.nodeMap = none :=
        hfresh e.1 (by simp)
      obtain ⟨hinv2, hpres⟩ := processEntryG_inv g gm e hp hfr hinv
      simp only [List.map_cons, List.nodup_cons] at hnd
      refine ih gm g2 h hinv2 ?_ hnd.2
      intro id hid
      have hidne : id ≠ e.1 := by
        intro heq
        exact hnd.1 (heq ▸ hid)
      exact hpres id hidne (hfresh id (by simp [hid]))

/-- C4 counterexample: the payload whose button entry (the only one with a
highlight index) is referenced by no other entry: the build succeeds, the
selector map holds the button under key 0, yet the button is not reachable
from the returned body root, whose children list is empty — a dangling
index, contrary to the clause of the claim covering payloads that contain entries not linked as a child of any other entry. -/
theorem c4_dangling_index_cex :
    construct_dom_tree mapDangling "1" =
      .ok (bodyUnlinked, [(0, buttonNode)]) ∧
    ¬ Reaches buttonNode bodyUnlinked := by
  refine ⟨rfl, fun h => ?_⟩
  rcases reaches_elim h with h1 | ⟨c, hc, _⟩
  · simp [buttonNode, bodyUnlinked] at h1
  · simp [bodyUnlinked, DOMNode.childrenOf] at hc

/-- C4 (amended): for a payload with distinct ids in which, after the
loop, every id left unlinked is the root id (the bottom-up payload shape
the bridge emits: every non-root entry is referenced as a child of a later
entry), every value of the resulting selector map is reachable from the
returned root by following children links — no dangling indices.  For a
payload containing an entry linked as a child of no other entry, the value
can instead dangle, as the counterexample shows. -/
theorem c4_selmap_reachable (m : List (String × RawEntry)) (rid : String)
    (root : DOMNode) (sm : List (Nat × DOMNode)) (g : GBuildState)
    (hnd : (m.map Prod.fst).Nodup)
    (hG : buildFoldG m
      { bs := { nodeMap := [], selMap := [] }, unlinked := [] } = .ok g)
    (hU : ∀ u ∈ g.unlinked, u = rid)
    (hok : construct_dom_tree m rid = .ok (root, sm)) :
    ∀ q ∈ sm, Reaches q.2 root := by
  intro q hq
  have hbs : buildFold m { nodeMap := [], selMap := [] } = .ok g.bs := by
    have hrel := buildFoldG_bs m
      { bs := { nodeMap := [], selMap := [] }, unlinked := [] }
    rw [hG] at hrel
    simpa [Except.map] using hrel
  unfold construct_dom_tree at hok
  rw [hbs] at hok
  dsimp only at hok
  cases hl : lookupA rid g.bs.nodeMap with
  | none => rw [hl] at hok; exact absurd hok (by simp)
  | some n =>
    rw [hl] at hok
    dsimp only at hok
    by_cases he : n.isElement = true
    · rw [if_pos he] at hok
      simp only [Except.ok.injEq, Prod.mk.injEq] at hok
      obtain ⟨hroot, hsm⟩ := hok
      have hginv : GInv g := by
        refine buildFoldG_inv m _ g hG ?_ ?_ hnd
        · intro q2 hq2
          simp [GBuildState.bs] at hq2
        · intro id _
          rfl
      obtain ⟨u, nn, hu, hlook, hr⟩ := hginv q (hsm ▸ hq)
      have hurid : u = rid := hU u hu
      subst hurid
      rw [hl] at hlook
      have hnn : n = nn := Option.some.inj hlook
      subst hnn
      exact hroot ▸ hr
    · rw [if_neg he] at hok
      exact absurd hok (by simp)

/-- C4 witness: the amended theorem applied to the bottom-up scenario
payload: the only selector-map value, the button, is reachable from the
body root. -/
theorem c4_selmap_reachable_w : Reaches buttonNode bodyLinked :=
  c4_selmap_reachable mapBottomUp "root" bodyLinked [(0, buttonNode)]
    { bs := builtStateBU, unlinked := ["root"] }
    (by decide) rfl (by decide) rfl (0, buttonNode)
    (List.mem_singleton.mpr rfl)

end BrowserUse
